import Mathlib

/-!
Shallow embedding of the mineru-demo document-ingestion service: the two
markdown table renderers and the pdfplumber fallback pipeline of
app/services/parser.py, the per-format parse entry points, and the HTTP
validation layers of app/main.py and server.py.  Python strings are
modelled as lists of characters; external capabilities (the layout model,
pdfplumber page decoding, MarkItDown conversion, the OCR pipe) enter as
parameters.  Filesystem effects (temp-resource lifetime, output writes)
are recorded in explicit effect records mirroring the with/finally
structure of the source.
-/

set_option linter.unusedVariables false

/-- Python strings, modelled as lists of characters. -/
abbrev Str : Type := List Char

/-- Characters of a Lean string literal. -/
def toL (s : String) : Str := s.data

/-- The single-quote character, written by code point. -/
def quoteChar : Char := Char.ofNat 39

/-- Python `sep.join(xs)`. -/
def pyJoin (sep : Str) : List Str → Str
  | [] => []
  | [x] => x
  | x :: y :: ys => x ++ sep ++ pyJoin sep (y :: ys)

/-- Python `s.strip()`: remove leading and trailing whitespace. -/
def pyStrip (s : Str) : Str :=
  ((s.dropWhile Char.isWhitespace).reverse.dropWhile Char.isWhitespace).reverse

/-- Python `s.lower()`. -/
def pyLower (s : Str) : Str := s.map Char.toLower

/-- Helper for `countWords`: the Bool tracks whether we are inside a word. -/
def countWordsAux : Bool → Str → Nat
  | _, [] => 0
  | inw, c :: cs =>
    if Char.isWhitespace c then countWordsAux false cs
    else (if inw then 0 else 1) + countWordsAux true cs

/-- Python `len(s.split())`: number of maximal non-whitespace runs. -/
def countWords (s : Str) : Nat := countWordsAux false s

/-- Decimal rendering of a natural number, as Python f-string interpolation. -/
def natStr (n : Nat) : Str := (Nat.repr n).data

/-- Everything before the last dot of a string that contains a dot. -/
def beforeLastDot : Str → Str
  | [] => []
  | c :: cs => if Char.ofNat 46 ∈ cs then c :: beforeLastDot cs else []

/-- Models Python `Path(filename).stem`: the name minus its last dot-suffix,
where a leading dot does not start a suffix. -/
def pyStem (s : Str) : Str :=
  match s with
  | [] => []
  | c :: rest => if Char.ofNat 46 ∈ rest then c :: beforeLastDot rest else s

/-- Python `str(list_of_strings)`: bracketed, comma separated, quoted items. -/
def pyStrListRepr (xs : List Str) : Str :=
  toL "[" ++ pyJoin (toL ", ") (xs.map (fun l => [quoteChar] ++ l ++ [quoteChar])) ++ toL "]"

/-- The 400 detail built by both endpoints for an unsupported language. -/
def unsupportedLangMsg (lang : Str) (langs : List Str) : Str :=
  toL "Unsupported language: " ++ lang ++ toL ". Supported: " ++ pyStrListRepr langs

/-- Models the configured persistent output directory path prefix. -/
def OUTPUT_DIR : Str := toL "output/"

/-! ## Table renderers (parser.py lines 22-81) -/

/-- A table cell as pdfplumber/PyMuPDF deliver it: text or missing. -/
abbrev Cell : Type := Option Str

/-- Raw row data of one extracted table. -/
abbrev TableData : Type := List (List Cell)

/-- Python `str(cell) if cell else ""` for an optional-string cell: `None`
and the empty string are falsy. -/
def cellToStr (c : Cell) : Str := c.getD []

/-- Python `s.replace("|", "\\|")`: the pattern is a single character, so
the replacement maps every pipe to a backslash-pipe pair. -/
def escapePipes : Str → Str
  | [] => []
  | c :: cs => if c = '|' then '\\' :: '|' :: escapePipes cs else c :: escapePipes cs

/-- Python `s.replace("\n", " ")`. -/
def nlToSpace (s : Str) : Str := s.map (fun c => if c = '\n' then ' ' else c)

/-- Cell preparation of `_list_table_to_markdown`: stringify, escape pipes,
newlines to spaces, then strip. -/
def escapeCell (c : Cell) : Str := pyStrip (nlToSpace (escapePipes (cellToStr c)))

/-- Cell preparation of the data rows of `_table_to_markdown`: same but
without the strip. -/
def escNoStrip (c : Cell) : Str := nlToSpace (escapePipes (cellToStr c))

/-- Scanner deciding that every pipe is immediately preceded by a
backslash; the Bool argument records whether the previous character was a
backslash. -/
def noBarePipeAux : Bool → Str → Bool
  | _, [] => true
  | prevBS, c :: cs =>
    if c = '|' then prevBS && noBarePipeAux false cs
    else noBarePipeAux (decide (c = '\\')) cs

/-- No unescaped pipe occurs in the string. -/
def noBarePipe (s : Str) : Bool := noBarePipeAux false s

/-- The row filter of `_list_table_to_markdown` line 51: keep a row iff it
is non-empty and has a truthy cell. -/
def rowKeep (row : List Cell) : Bool :=
  !row.isEmpty && row.any (fun c => !(cellToStr c).isEmpty)

/-- `data = [row for row in data if row and any(cell for cell in row)]`. -/
def filterRows (data : List (List Cell)) : List (List Cell) := data.filter rowKeep

/-- `max(len(row) for row in data)` over the filtered rows. -/
def maxColsOf (rows : List (List Cell)) : Nat :=
  rows.foldl (fun a r => Nat.max a r.length) 0

/-- The cell list built for one row by the `for i in range(max_cols)` loop
of `_list_table_to_markdown`. -/
def rowCells (m : Nat) (row : List Cell) : List Str :=
  (List.range m).map (fun i => escapeCell (row.getD i none))

/-- `"| " + " | ".join(cells) + " |"`. -/
def mkRowLine (cells : List Str) : Str :=
  toL "| " ++ pyJoin (toL " | ") cells ++ toL " |"

/-- The rows of prepared cells that `_list_table_to_markdown` renders, in
order: header row, separator row, data rows, all sized by the widest
filtered row. -/
def cellRowsOfFiltered : List (List Cell) → List (List Str)
  | [] => []
  | hd :: tl =>
    rowCells (maxColsOf (hd :: tl)) hd
      :: List.replicate (maxColsOf (hd :: tl)) (toL "---")
      :: tl.map (rowCells (maxColsOf (hd :: tl)))

/-- Joining the rendered lines of the filtered table with newlines. -/
def renderFiltered (f : List (List Cell)) : Str :=
  pyJoin (toL "\n") ((cellRowsOfFiltered f).map mkRowLine)

/-- `_list_table_to_markdown` (parser.py lines 45-81): guard on empty data
or an empty first row, filter out fully-empty rows, then render. -/
def list_table_to_markdown (data : List (List Cell)) : Str :=
  match data with
  | [] => []
  | r0 :: _ => if r0 = [] then [] else renderFiltered (filterRows data)

/-- The rows of prepared cells rendered by `_table_to_markdown` (parser.py
lines 22-42): header cells are stringified but not escaped, the separator
is sized by the header row, and data rows keep their own length. -/
def tmCellRows : List (List Cell) → List (List Str)
  | [] => []
  | r0 :: rest =>
    if r0 = [] then []
    else
      (r0.map cellToStr)
        :: List.replicate r0.length (toL "---")
        :: rest.map (fun row => row.map escNoStrip)

/-- `_table_to_markdown` (parser.py lines 22-42). -/
def table_to_markdown (data : List (List Cell)) : Str :=
  pyJoin (toL "\n") ((tmCellRows data).map mkRowLine)

/-! ## PDF fallback pipeline (parser.py lines 136-221) -/

/-- One character glyph as pdfplumber reports it: position fields used by
the table-region filter. -/
structure PChar where
  x0 : Int
  top : Int
deriving DecidableEq

/-- A detected table bounding box `(x0, top, x1, bottom)`. -/
structure BBox where
  x0 : Int
  top : Int
  x1 : Int
  bottom : Int
deriving DecidableEq

/-- One pdfplumber page, with the results of the external extraction
capabilities as data: the two `extract_tables` settings, the `find_tables`
bounding boxes, the raw glyphs, full-page text, and the
`pdfplumber.utils.extract_text` function over glyph lists. -/
structure Page where
  chars : List PChar
  tablesLines : List TableData
  tablesText : List TableData
  foundBBoxes : List BBox
  fullTextRaw : Option Str
  extractFrom : List PChar → Str

/-- The membership test of parser.py lines 201-203:
`bbox[0] <= char.x0 <= bbox[2] and bbox[1] <= char.top <= bbox[3]`. -/
def charInBBoxB (c : PChar) (b : BBox) : Bool :=
  decide (b.x0 ≤ c.x0) && decide (c.x0 ≤ b.x1) &&
    decide (b.top ≤ c.top) && decide (c.top ≤ b.bottom)

/-- The glyphs kept by the filter loop: those inside no detected bounding
box. -/
def filteredChars (p : Page) : List PChar :=
  p.chars.filter (fun c => !(p.foundBBoxes.any (fun b => charInBBoxB c b)))

/-- The page prose text of the fallback path (parser.py lines 194-214). -/
def pageTextOf (p : Page) : Str :=
  if p.foundBBoxes ≠ [] then
    (if filteredChars p ≠ [] then p.extractFrom (filteredChars p) else [])
  else (p.fullTextRaw.getD [])

/-- One table entry of a page structured record. -/
structure TableEntry where
  index : Nat
  markdown : Str
  data : TableData
deriving DecidableEq

/-- The per-page structured record accumulated by the fallback path. -/
structure PageData where
  page : Nat
  text : Str
  tables : List TableEntry
deriving DecidableEq

/-- The table loop of parser.py lines 174-184: enumerate the extracted
tables, render each, and keep only non-empty renderings in the markdown
body and the structured record; skipped tables still advance the index. -/
def tableSections : Nat → List TableData → Str × List TableEntry
  | _, [] => ([], [])
  | idx, t :: ts =>
    let rest := tableSections (idx + 1) ts
    if t ≠ [] then
      let md := list_table_to_markdown t
      if md ≠ [] then
        (toL "### Table " ++ natStr (idx + 1) ++ toL "\n\n" ++ md ++ toL "\n\n" ++ rest.1,
          ⟨idx + 1, md, t⟩ :: rest.2)
      else rest
    else rest

/-- One iteration of the fallback page loop (parser.py lines 145-221):
heading, table sections, then prose text outside table regions.  `n` is
the zero-based page index. -/
def processPage (n : Nat) (p : Page) : Str × PageData :=
  let heading := toL "## Page " ++ natStr (n + 1) ++ toL "\n\n"
  let tbls := if p.tablesLines = [] then p.tablesText else p.tablesLines
  let secs := tableSections 0 tbls
  let text := pageTextOf p
  let body := heading ++ secs.1 ++ (if pyStrip text ≠ [] then text ++ toL "\n\n" else [])
  (body, { page := n + 1
           text := if pyStrip text ≠ [] then pyStrip text else []
           tables := secs.2 })

/-- The whole fallback loop over the pages, accumulating concatenated
markdown and the content list. -/
def fallbackRun : Nat → List Page → Str × List PageData
  | _, [] => ([], [])
  | n, p :: ps =>
    let here := processPage n p
    let rest := fallbackRun (n + 1) ps
    (here.1 ++ rest.1, here.2 :: rest.2)

/-! ## Result envelope and parse entry points (parser.py lines 84-405) -/

/-- One entry of a returned `content_list`: either a fallback page record
or an opaque structured item produced by the primary model pipeline. -/
inductive ContentItem where
  | pageItem (pd : PageData)
  | modelItem (s : Str)
deriving DecidableEq

/-- The normalized result dictionary; `Option` fields model dictionary
keys that are present only for some document classes. -/
structure ExtractionResult where
  filename : Str
  markdown : Str
  markdown_file : Str
  content_list : Option (List ContentItem)
  images : Option (List Str)
  page_count : Option Nat
  image_size : Option (Nat × Nat)
  format : Option Str
  word_count : Option Nat
  converter : Option Str
deriving DecidableEq

/-- Outcome of the primary magic-pdf analysis (the try block of parser.py
lines 128-135): success with markdown, content list and the image files it
wrote into the temp image directory; a `FileNotFoundError` for a missing
model asset; or any other exception. -/
inductive PrimaryOutcome where
  | ok (md : Str) (contentList : List ContentItem) (imageNames : List Str)
  | resourceMissing (msg : Str)
  | fatal (e : Str)
deriving DecidableEq

/-- Filesystem effects of one `_parse_pdf_sync` call. -/
structure PdfEffects where
  tempRemoved : Bool
  mdWritten : Option Str
  imagesDirCreated : Option Str
  imagesCopied : List Str
deriving DecidableEq

/-- Filesystem effects of one image or office parse call. -/
structure SyncEffects where
  tempRemoved : Bool
  mdWritten : Option Str
deriving DecidableEq

/-- The success tail of `_parse_pdf_sync` (parser.py lines 223-248):
timestamped markdown artifact, the images directory guarded by
`image_dir.exists()`, and the result dictionary. -/
def pdfSuccess (filename ts md : Str) (cl : List ContentItem) (imgs : List Str)
    (pageCount : Nat) : Except Str ExtractionResult × PdfEffects :=
  let base := pyStem filename
  let mdPath := OUTPUT_DIR ++ base ++ toL "_" ++ ts ++ toL ".md"
  -- the temp image directory is created unconditionally before the try
  -- block (parser.py lines 114-115), so the existence check always holds
  let imageDirStillExists := true
  let copied := if imageDirStillExists then imgs else []
  let dirCreated :=
    if imageDirStillExists then some (OUTPUT_DIR ++ base ++ toL "_" ++ ts ++ toL "_images")
    else none
  (Except.ok
      { filename := filename
        markdown := md
        markdown_file := mdPath
        content_list := some cl
        images := some copied
        page_count := some pageCount
        image_size := none
        format := none
        word_count := none
        converter := none },
    { tempRemoved := true
      mdWritten := some mdPath
      imagesDirCreated := dirCreated
      imagesCopied := copied })

/-- `_parse_pdf_sync` (parser.py lines 100-248).  `content` is the raw
request bytes; `pdfPages` models `pdfplumber.open(io.BytesIO(content))`;
`primary` is the outcome of the magic-pdf try block; `pageCount` models
`len(dataset)` and `ts` the formatted timestamp.  The surrounding
`tempfile.TemporaryDirectory` context removes the temp directory on every
exit path. -/
def parsePdfSync {β : Type} (filename lang : Str) (content : β)
    (pdfPages : β → List Page) (primary : PrimaryOutcome) (pageCount : Nat)
    (ts : Str) : Except Str ExtractionResult × PdfEffects :=
  match primary with
  | .ok md cl imgs => pdfSuccess filename ts md cl imgs pageCount
  | .resourceMissing _ =>
    let fb := fallbackRun 0 (pdfPages content)
    pdfSuccess filename ts fb.1 (fb.2.map ContentItem.pageItem) [] pageCount
  | .fatal e =>
    (Except.error e,
      { tempRemoved := true, mdWritten := none, imagesDirCreated := none, imagesCopied := [] })

/-- `_parse_image_sync` (parser.py lines 266-317): PIL supplies the pixel
size and format, the OCR pipe supplies the markdown or fails; the temp
directory is removed either way. -/
def parseImageSync (filename ts : Str) (width height : Nat) (fmt : Str)
    (ocr : Except Str Str) : Except Str ExtractionResult × SyncEffects :=
  match ocr with
  | .error e => (Except.error e, { tempRemoved := true, mdWritten := none })
  | .ok md =>
    let mdPath := OUTPUT_DIR ++ pyStem filename ++ toL "_" ++ ts ++ toL ".md"
    (Except.ok
        { filename := filename
          markdown := md
          markdown_file := mdPath
          content_list := none
          images := none
          page_count := none
          image_size := some (width, height)
          format := some fmt
          word_count := none
          converter := none },
      { tempRemoved := true, mdWritten := some mdPath })

/-- `_parse_office_sync` (parser.py lines 339-375): MarkItDown converts the
suffixed temp file; the `finally` block unlinks the temp file on both the
success and the failure path. -/
def parseOfficeSync (filename fileType ts : Str)
    (convert : Except Str Str) : Except Str ExtractionResult × SyncEffects :=
  match convert with
  | .error e => (Except.error e, { tempRemoved := true, mdWritten := none })
  | .ok md =>
    let mdPath := OUTPUT_DIR ++ pyStem filename ++ toL "_" ++ ts ++ toL ".md"
    (Except.ok
        { filename := filename
          markdown := md
          markdown_file := mdPath
          content_list := none
          images := none
          page_count := none
          image_size := none
          format := none
          word_count := some (countWords md)
          converter := some (toL "markitdown") },
      { tempRemoved := true, mdWritten := some mdPath })

/-! ## HTTP validation layers (app/main.py and server.py) -/

/-- `SUPPORTED_LANGUAGES` of app/main.py lines 12-15. -/
def SUPPORTED_LANGUAGES : List Str :=
  [toL "en", toL "ch", toL "korean", toL "japan", toL "chinese_cht", toL "ta",
    toL "te", toL "ka", toL "th", toL "el", toL "latin", toL "arabic",
    toL "cyrillic", toL "devanagari"]

/-- `SUPPORTED_LANGUAGES` of server.py lines 18-22. -/
def SUPPORTED_LANGUAGES_server : List Str :=
  [toL "ch", toL "ch_server", toL "ch_lite", toL "en", toL "korean", toL "japan",
    toL "chinese_cht", toL "ta", toL "te", toL "ka", toL "th", toL "el",
    toL "latin", toL "arabic", toL "east_slavic", toL "cyrillic", toL "devanagari"]

/-- An HTTP response of the app/main.py PDF endpoint. -/
inductive Resp where
  | success (r : ExtractionResult)
  | failure (status : Nat) (detail : Str)
deriving DecidableEq

/-- Observable outcome of one endpoint call: the response, whether the
parser was invoked (temp resources exist only inside it), and the
language it was invoked with. -/
structure EndpointOut where
  resp : Resp
  parseInvoked : Bool
  langUsed : Option Str

/-- `parse_pdf_endpoint` of app/main.py lines 33-64: extension check, then
language check, then the parse call; parser exceptions become a 500. -/
def parse_pdf_endpoint (filename : Str) (langOpt : Option Str)
    (runParse : Str → Except Str ExtractionResult) : EndpointOut :=
  let lang := langOpt.getD (toL "en")
  if !((toL ".pdf").isSuffixOf (pyLower filename)) then
    { resp := .failure 400 (toL "File must be a PDF"), parseInvoked := false, langUsed := none }
  else if lang ∉ SUPPORTED_LANGUAGES then
    { resp := .failure 400 (unsupportedLangMsg lang SUPPORTED_LANGUAGES)
      parseInvoked := false, langUsed := none }
  else
    match runParse lang with
    | .ok r => { resp := .success r, parseInvoked := true, langUsed := some lang }
    | .error e => { resp := .failure 500 e, parseInvoked := true, langUsed := some lang }

/-- An HTTP response of the server.py PDF endpoint. -/
inductive SrvResp where
  | success (body : Str)
  | failure (status : Nat) (error : Str)
deriving DecidableEq

/-- Observable outcome of one server.py endpoint call. -/
structure SrvOut where
  resp : SrvResp
  parseInvoked : Bool
  langUsed : Option Str

/-- `parse_pdf` of server.py lines 24-101: language check before the temp
directory, then the mineru subprocess; a non-zero return code becomes a
500. -/
def server_parse_pdf (filename : Str) (langOpt : Option Str)
    (runMineru : Str → Except Str Str) : SrvOut :=
  let lang := langOpt.getD (toL "korean")
  if lang ∉ SUPPORTED_LANGUAGES_server then
    { resp := .failure 400 (unsupportedLangMsg lang SUPPORTED_LANGUAGES_server)
      parseInvoked := false, langUsed := none }
  else
    match runMineru lang with
    | .ok body => { resp := .success body, parseInvoked := true, langUsed := some lang }
    | .error e => { resp := .failure 500 e, parseInvoked := true, langUsed := some lang }

/-! ## Concrete instances used by witnesses -/

/-- A concrete page with one detected bounding box: the first glyph lies
outside it, the second inside. -/
def pageW : Page :=
  { chars := [⟨0, 0⟩, ⟨10, 10⟩], tablesLines := [], tablesText := [],
    foundBBoxes := [⟨5, 5, 20, 20⟩], fullTextRaw := none,
    extractFrom := fun cs => if cs.length = 1 then toL "t" else [] }

/-- The result produced by a concrete successful primary PDF parse. -/
def c3PdfR : ExtractionResult :=
  { filename := toL "d.pdf", markdown := toL "m", markdown_file := toL "output/d_T.md"
    content_list := some [], images := some [], page_count := some 1
    image_size := none, format := none, word_count := none, converter := none }

/-- The result produced by a concrete successful image parse. -/
def c3ImgR : ExtractionResult :=
  { filename := toL "i.png", markdown := toL "m", markdown_file := toL "output/i_T.md"
    content_list := none, images := none, page_count := none
    image_size := some (2, 3), format := some (toL "PNG"), word_count := none, converter := none }

/-- The result produced by a concrete successful office parse. -/
def c3OffR : ExtractionResult :=
  { filename := toL "w.docx", markdown := toL "m", markdown_file := toL "output/w_T.md"
    content_list := none, images := none, page_count := none
    image_size := none, format := none, word_count := some 1, converter := some (toL "markitdown") }

/-! ## Helper lemmas -/

theorem noBarePipeAux_escapePipes (s : Str) : ∀ b, noBarePipeAux b (escapePipes s) = true := by
  induction s with
  | nil => intro b; rfl
  | cons c cs ih =>
    intro b
    by_cases h : c = '|'
    · simp [escapePipes, h, noBarePipeAux, ih]
    · simp [escapePipes, h, noBarePipeAux, ih]

theorem noBarePipeAux_nlToSpace (s : Str) :
    ∀ b, noBarePipeAux b s = true → noBarePipeAux b (nlToSpace s) = true := by
  induction s with
  | nil => intro b h; exact h
  | cons c cs ih =>
    intro b h
    by_cases hc : c = '|'
    · subst hc
      simp [noBarePipeAux, nlToSpace] at h ⊢
      exact ⟨h.1, ih false h.2⟩
    · by_cases hn : c = '\n'
      · subst hn
        simp [noBarePipeAux, nlToSpace] at h ⊢
        exact ih false h
      · simp [noBarePipeAux, nlToSpace, hc, hn] at h ⊢
        exact ih _ h

theorem noBarePipeAux_dropWhile (s : Str) (h : noBarePipeAux false s = true) :
    noBarePipeAux false (s.dropWhile Char.isWhitespace) = true := by
  induction s with
  | nil => exact h
  | cons c cs ih =>
    by_cases hw : Char.isWhitespace c
    · have hc : c ≠ '|' := by intro hc; subst hc; simp at hw
      have hb : c ≠ '\\' := by intro hb; subst hb; simp at hw
      rw [List.dropWhile_cons_of_pos hw]
      apply ih
      simpa [noBarePipeAux, hc, hb] using h
    · rwa [List.dropWhile_cons_of_neg hw]

theorem noBarePipeAux_append (v w : Str) :
    ∀ b, noBarePipeAux b (v ++ w) = true → noBarePipeAux b v = true := by
  induction v with
  | nil => intro b h; rfl
  | cons c cs ih =>
    intro b h
    by_cases hc : c = '|'
    · subst hc
      simp [noBarePipeAux] at h ⊢
      exact ⟨h.1, ih false h.2⟩
    · simp [noBarePipeAux, hc] at h ⊢
      exact ih _ h

theorem noBarePipe_pyStrip (s : Str) (h : noBarePipe s = true) :
    noBarePipe (pyStrip s) = true := by
  unfold pyStrip
  have h1 : noBarePipeAux false (s.dropWhile Char.isWhitespace) = true :=
    noBarePipeAux_dropWhile s h
  set t := s.dropWhile Char.isWhitespace with ht
  have hsplit : (t.reverse.takeWhile Char.isWhitespace)
      ++ (t.reverse.dropWhile Char.isWhitespace) = t.reverse :=
    List.takeWhile_append_dropWhile _ _
  have h2 : t = (t.reverse.dropWhile Char.isWhitespace).reverse
      ++ (t.reverse.takeWhile Char.isWhitespace).reverse := by
    rw [← List.reverse_append, hsplit, List.reverse_reverse]
  rw [h2] at h1
  exact noBarePipeAux_append _ _ false h1

theorem noBarePipe_escapeCell (c : Cell) : noBarePipe (escapeCell c) = true :=
  noBarePipe_pyStrip _ (noBarePipeAux_nlToSpace _ false (noBarePipeAux_escapePipes _ false))

theorem not_mem_nlToSpace (s : Str) : '\n' ∉ nlToSpace s := by
  simp only [nlToSpace, List.mem_map, not_exists]
  rintro x ⟨hx, hite⟩
  by_cases h : x = '\n' <;> simp [h] at hite

theorem mem_pyStrip (s : Str) (a : Char) (h : a ∈ pyStrip s) : a ∈ s := by
  unfold pyStrip at h
  rw [List.mem_reverse] at h
  have h1 := (List.dropWhile_sublist _).subset h
  rw [List.mem_reverse] at h1
  exact (List.dropWhile_sublist _).subset h1

theorem nl_not_mem_escapeCell (c : Cell) : '\n' ∉ escapeCell c :=
  fun h => not_mem_nlToSpace _ (mem_pyStrip _ _ h)

theorem rowCells_length (m : Nat) (row : List Cell) : (rowCells m row).length = m := by
  simp [rowCells]

theorem rowCells_getD_of_le (m i : Nat) (row : List Cell) (him : i < m)
    (hlen : row.length ≤ i) : (rowCells m row).getD i (toL "x") = [] := by
  rw [rowCells, List.getD_eq_getElem?_getD, List.getElem?_map, List.getElem?_range him]
  show escapeCell (row.getD i none) = []
  rw [List.getD_eq_default _ _ hlen]
  rfl

theorem rowKeep_iff (row : List Cell) :
    rowKeep row = true ↔ row ≠ [] ∧ ∃ c ∈ row, cellToStr c ≠ [] := by
  cases row with
  | nil => simp [rowKeep]
  | cons c cs => simp [rowKeep, List.any_eq_true, List.isEmpty_iff]

theorem rowKeep_eq_false_iff (row : List Cell) :
    rowKeep row = false ↔ ∀ c ∈ row, cellToStr c = [] := by
  cases row with
  | nil => simp [rowKeep]
  | cons c cs => simp [rowKeep, List.any_eq_true, List.isEmpty_iff]

theorem toL_pipe_space : toL "| " = ['|', ' '] := rfl

theorem renderFiltered_ne_nil (hd : List Cell) (tl : List (List Cell)) :
    renderFiltered (hd :: tl) ≠ [] := by
  simp only [renderFiltered, cellRowsOfFiltered, List.map_cons, pyJoin]
  intro h
  rw [mkRowLine, toL_pipe_space] at h
  simp at h

theorem filterRows_eq_nil_iff (data : List (List Cell)) :
    filterRows data = [] ↔ ∀ row ∈ data, ∀ c ∈ row, cellToStr c = [] := by
  rw [filterRows, List.filter_eq_nil_iff]
  constructor
  · intro h row hrow
    exact (rowKeep_eq_false_iff row).mp (Bool.eq_false_iff.mpr (h row hrow))
  · intro h row hrow
    rw [Bool.not_eq_true, rowKeep_eq_false_iff]
    exact h row hrow

theorem pyJoin_decomp (sep : Str) (xs : List Str) (l : Str) (h : l ∈ xs) :
    ∃ p q, pyJoin sep xs = p ++ l ++ q := by
  induction xs with
  | nil => cases h
  | cons x rest ih =>
    rcases List.mem_cons.mp h with rfl | h2
    · cases rest with
      | nil => exact ⟨[], [], by simp [pyJoin]⟩
      | cons y ys => exact ⟨[], sep ++ pyJoin sep (y :: ys), by simp [pyJoin, List.append_assoc]⟩
    · obtain ⟨p, q, hpq⟩ := ih h2
      cases rest with
      | nil => cases h2
      | cons y ys =>
        exact ⟨x ++ sep ++ p, q, by simp [pyJoin, hpq, List.append_assoc]⟩

theorem listRepr_decomp (l : Str) (xs : List Str) (h : l ∈ xs) :
    ∃ p q, pyStrListRepr xs = p ++ l ++ q := by
  obtain ⟨p, q, hpq⟩ := pyJoin_decomp (toL ", ")
    (xs.map (fun s => [quoteChar] ++ s ++ [quoteChar]))
    ([quoteChar] ++ l ++ [quoteChar]) (List.mem_map_of_mem _ h)
  refine ⟨toL "[" ++ p ++ [quoteChar], [quoteChar] ++ q ++ toL "]", ?_⟩
  rw [pyStrListRepr, hpq]
  simp [List.append_assoc]

theorem unsupportedMsg_decomp_lang (lang : Str) (xs : List Str) :
    ∃ p q, unsupportedLangMsg lang xs = p ++ lang ++ q :=
  ⟨toL "Unsupported language: ", toL ". Supported: " ++ pyStrListRepr xs, by
    simp [unsupportedLangMsg, List.append_assoc]⟩

theorem unsupportedMsg_decomp_mem (lang l : Str) (xs : List Str) (h : l ∈ xs) :
    ∃ p q, unsupportedLangMsg lang xs = p ++ l ++ q := by
  obtain ⟨p, q, hpq⟩ := listRepr_decomp l xs h
  refine ⟨toL "Unsupported language: " ++ lang ++ toL ". Supported: " ++ p, q, ?_⟩
  rw [unsupportedLangMsg, hpq]
  simp [List.append_assoc]

/-! ## Claim theorems -/

/-- Claim C1: for every PDF request, a primary failure with the
missing-model-resource condition leads to exactly one transparent rerun of
the classical fallback extraction over the same original bytes, returned
as a success, never as an error; any other primary failure propagates to
the caller unchanged. -/
theorem c1_resource_missing_recovers {β : Type} (filename lang : Str) (content : β)
    (pdfPages : β → List Page) (primary : PrimaryOutcome) (pageCount : Nat) (ts : Str) :
    (∀ msg, primary = PrimaryOutcome.resourceMissing msg →
      (parsePdfSync filename lang content pdfPages primary pageCount ts).1 =
        Except.ok
          { filename := filename
            markdown := (fallbackRun 0 (pdfPages content)).1
            markdown_file := OUTPUT_DIR ++ pyStem filename ++ toL "_" ++ ts ++ toL ".md"
            content_list := some (((fallbackRun 0 (pdfPages content)).2).map ContentItem.pageItem)
            images := some []
            page_count := some pageCount
            image_size := none
            format := none
            word_count := none
            converter := none })
    ∧ (∀ e, primary = PrimaryOutcome.fatal e →
        (parsePdfSync filename lang content pdfPages primary pageCount ts).1 = Except.error e) := by
  constructor
  · intro msg h; subst h; rfl
  · intro e h; subst h; rfl

/-- Witness for C1 at a concrete request: a missing-model outcome yields
the fallback success, a fatal outcome propagates. -/
theorem c1_witness :
    ((parsePdfSync (toL "d.pdf") (toL "en") (0 : Nat) (fun _ => [])
        (PrimaryOutcome.resourceMissing []) 3 (toL "T")).1 =
      Except.ok
        { filename := toL "d.pdf", markdown := [], markdown_file := toL "output/d_T.md"
          content_list := some [], images := some [], page_count := some 3
          image_size := none, format := none, word_count := none, converter := none })
    ∧ ((parsePdfSync (toL "d.pdf") (toL "en") (0 : Nat) (fun _ => [])
        (PrimaryOutcome.fatal (toL "boom")) 3 (toL "T")).1 = Except.error (toL "boom")) := by
  constructor
  · exact ((c1_resource_missing_recovers (toL "d.pdf") (toL "en") (0 : Nat) (fun _ => [])
      (PrimaryOutcome.resourceMissing []) 3 (toL "T")).1 [] rfl).trans (by rfl)
  · exact (c1_resource_missing_recovers (toL "d.pdf") (toL "en") (0 : Nat) (fun _ => [])
      (PrimaryOutcome.fatal (toL "boom")) 3 (toL "T")).2 (toL "boom") rfl

/-- Claim C2 (amended): in the list-based renderer actually used by the
fallback path, every rendered row has exactly the maximum observed column
count of cells, rows shorter than the widest get empty trailing cells, and
every cell is free of newlines and of unescaped pipes. -/
theorem c2_table_rows_padded_and_escaped (data : List (List Cell)) :
    (∀ row ∈ cellRowsOfFiltered (filterRows data),
        row.length = maxColsOf (filterRows data)
        ∧ ∀ cell ∈ row, noBarePipe cell = true ∧ '\n' ∉ cell)
    ∧ (∀ (m i : Nat) (row : List Cell), i < m → row.length ≤ i →
        (rowCells m row).getD i (toL "x") = []) := by
  constructor
  · intro row hrow
    generalize hf : filterRows data = f at hrow ⊢
    cases f with
    | nil => simp [cellRowsOfFiltered] at hrow
    | cons hd tl =>
      simp only [cellRowsOfFiltered, List.mem_cons, List.mem_map] at hrow
      rcases hrow with h | h | ⟨r, hr, h⟩
      · subst h
        refine ⟨rowCells_length _ _, ?_⟩
        intro cell hcell
        simp only [rowCells, List.mem_map] at hcell
        obtain ⟨i, hi, rfl⟩ := hcell
        exact ⟨noBarePipe_escapeCell _, nl_not_mem_escapeCell _⟩
      · subst h
        refine ⟨by simp, ?_⟩
        intro cell hcell
        rw [List.eq_of_mem_replicate hcell]
        exact ⟨by decide, by decide⟩
      · subst h
        refine ⟨rowCells_length _ _, ?_⟩
        intro cell hcell
        simp only [rowCells, List.mem_map] at hcell
        obtain ⟨i, hi, rfl⟩ := hcell
        exact ⟨noBarePipe_escapeCell _, nl_not_mem_escapeCell _⟩
  · intro m i row him hlen
    exact rowCells_getD_of_le m i row him hlen

/-- Counterexample for C2 as stated: the PyMuPDF renderer
`_table_to_markdown` neither pads rows to the maximum observed column
count (header length 1 versus maximum 2) nor escapes pipes in the header
row. -/
theorem c2_counterexample :
    tmCellRows [[some (toL "h|1")], [some (toL "a"), some (toL "b")]]
      = [[toL "h|1"], [toL "---"], [toL "a", toL "b"]]
    ∧ table_to_markdown [[some (toL "h|1")], [some (toL "a"), some (toL "b")]]
      = toL "| h|1 |\n| --- |\n| a | b |"
    ∧ maxColsOf [[some (toL "h|1")], [some (toL "a"), some (toL "b")]] = 2
    ∧ ¬ (∀ row ∈ tmCellRows [[some (toL "h|1")], [some (toL "a"), some (toL "b")]],
          row.length = 2)
    ∧ ¬ (∀ row ∈ tmCellRows [[some (toL "h|1")], [some (toL "a"), some (toL "b")]],
          ∀ cell ∈ row, noBarePipe cell = true) := by decide

/-- Witness for C2 at a concrete table with uneven rows and a piped cell. -/
theorem c2_witness :
    (rowCells 2 [some (toL "a|b"), some (toL "c")]).length = 2
    ∧ noBarePipe (escapeCell (some (toL "a|b"))) = true
    ∧ (rowCells 2 [some (toL "d")]).getD 1 (toL "x") = [] := by
  have h := c2_table_rows_padded_and_escaped
      [[some (toL "a|b"), some (toL "c")], [some (toL "d")]]
  have hrow := h.1 (rowCells 2 [some (toL "a|b"), some (toL "c")]) (by decide)
  refine ⟨hrow.1.trans (by decide), ?_, h.2 2 1 [some (toL "d")] (by decide) (by decide)⟩
  exact (hrow.2 (escapeCell (some (toL "a|b"))) (by decide)).1

/-- Claim C3 (amended): every successful result carries a markdown field;
PDF results always carry `content_list` and `images` as present,
possibly-empty containers, while image and office results omit both and
instead carry their own metadata fields. -/
theorem c3_content_fields_by_class :
    (∀ {β : Type} (filename lang : Str) (content : β) (pdfPages : β → List Page)
        (primary : PrimaryOutcome) (pageCount : Nat) (ts : Str) (r : ExtractionResult),
        (parsePdfSync filename lang content pdfPages primary pageCount ts).1 = Except.ok r →
          r.content_list.isSome = true ∧ r.images.isSome = true)
    ∧ (∀ (filename ts : Str) (width height : Nat) (fmt : Str) (ocr : Except Str Str)
        (r : ExtractionResult),
        (parseImageSync filename ts width height fmt ocr).1 = Except.ok r →
          r.content_list = none ∧ r.images = none
            ∧ r.image_size.isSome = true ∧ r.format.isSome = true)
    ∧ (∀ (filename fileType ts : Str) (convert : Except Str Str) (r : ExtractionResult),
        (parseOfficeSync filename fileType ts convert).1 = Except.ok r →
          r.content_list = none ∧ r.images = none
            ∧ r.word_count.isSome = true ∧ r.converter.isSome = true) := by
  refine ⟨?_, ?_, ?_⟩
  · intro β filename lang content pdfPages primary pageCount ts r h
    cases primary with
    | ok md cl imgs =>
      simp only [parsePdfSync, pdfSuccess] at h
      injection h with h2
      subst h2
      exact ⟨rfl, rfl⟩
    | resourceMissing msg =>
      simp only [parsePdfSync, pdfSuccess] at h
      injection h with h2
      subst h2
      exact ⟨rfl, rfl⟩
    | fatal e => exact absurd h (by simp [parsePdfSync])
  · intro filename ts width height fmt ocr r h
    cases ocr with
    | ok md =>
      simp only [parseImageSync] at h
      injection h with h2
      subst h2
      exact ⟨rfl, rfl, rfl, rfl⟩
    | error e => exact absurd h (by simp [parseImageSync])
  · intro filename fileType ts convert r h
    cases convert with
    | ok md =>
      simp only [parseOfficeSync] at h
      injection h with h2
      subst h2
      exact ⟨rfl, rfl, rfl, rfl⟩
    | error e => exact absurd h (by simp [parseOfficeSync])

/-- Witness for C3 at concrete successful parses of all three classes. -/
theorem c3_witness :
    (c3PdfR.content_list.isSome = true ∧ c3PdfR.images.isSome = true)
    ∧ (c3ImgR.content_list = none ∧ c3ImgR.images = none
        ∧ c3ImgR.image_size.isSome = true ∧ c3ImgR.format.isSome = true)
    ∧ (c3OffR.content_list = none ∧ c3OffR.images = none
        ∧ c3OffR.word_count.isSome = true ∧ c3OffR.converter.isSome = true) :=
  ⟨c3_content_fields_by_class.1 (toL "d.pdf") (toL "en") (0 : Nat) (fun _ => [])
      (PrimaryOutcome.ok (toL "m") [] []) 1 (toL "T") c3PdfR rfl,
    c3_content_fields_by_class.2.1 (toL "i.png") (toL "T") 2 3 (toL "PNG")
      (Except.ok (toL "m")) c3ImgR rfl,
    c3_content_fields_by_class.2.2 (toL "w.docx") (toL "docx") (toL "T")
      (Except.ok (toL "m")) c3OffR rfl⟩

/-- Counterexample for C3 as stated: successful image and office
extractions return results with no `content_list` and no `images` key at
all. -/
theorem c3_counterexample :
    ((parseImageSync (toL "i.png") (toL "T") 2 3 (toL "PNG") (Except.ok (toL "m"))).1.map
        (fun r => (r.content_list, r.images)) = Except.ok (none, none))
    ∧ ((parseOfficeSync (toL "w.docx") (toL "docx") (toL "T") (Except.ok (toL "m"))).1.map
        (fun r => (r.content_list, r.images)) = Except.ok (none, none)) := ⟨rfl, rfl⟩

/-- Claim C4 (amended): the list renderer returns the empty string exactly
when the table has zero rows, or its first row has zero cells, or every
row consists solely of empty or missing cells; a table rendering empty is
omitted from the page markdown (the section equals the one without it,
with the index still advanced) and every recorded table entry has a
non-empty rendering that matches its raw data. -/
theorem c4_empty_table_skipped :
    (∀ data : List (List Cell), list_table_to_markdown data = [] ↔
        (data = [] ∨ data.head? = some [] ∨ ∀ row ∈ data, ∀ c ∈ row, cellToStr c = []))
    ∧ (∀ (i : Nat) (t : TableData) (ts : List TableData),
        list_table_to_markdown t = [] →
          tableSections i (t :: ts) = tableSections (i + 1) ts)
    ∧ (∀ (i : Nat) (ts : List TableData) (e : TableEntry), e ∈ (tableSections i ts).2 →
        e.markdown = list_table_to_markdown e.data ∧ e.markdown ≠ []) := by
  refine ⟨?_, ?_, ?_⟩
  · intro data
    cases data with
    | nil => simp [list_table_to_markdown]
    | cons r0 rest =>
      by_cases h0 : r0 = []
      · subst h0
        simp [list_table_to_markdown]
      · rw [list_table_to_markdown]
        simp only [if_neg h0]
        constructor
        · intro h
          generalize hf : filterRows (r0 :: rest) = f at h
          cases f with
          | nil =>
            exact Or.inr (Or.inr ((filterRows_eq_nil_iff _).mp hf))
          | cons hd tl => exact absurd h (renderFiltered_ne_nil hd tl)
        · rintro (h | h | h)
          · exact absurd h (by simp)
          · simp at h; exact absurd h h0
          · rw [(filterRows_eq_nil_iff _).mpr h]
            rfl
  · intro i t ts hmd
    by_cases ht : t = []
    · simp [tableSections, ht]
    · simp [tableSections, ht, hmd]
  · intro i ts
    induction ts generalizing i with
    | nil => intro e he; simp [tableSections] at he
    | cons t ts ih =>
      intro e he
      by_cases ht : t = []
      · simp only [tableSections, if_neg (by simp [ht] : ¬t ≠ [])] at he
        exact ih (i + 1) e he
      · by_cases hmd : list_table_to_markdown t = []
        · simp only [tableSections, if_pos ht,
            if_neg (by simp [hmd] : ¬list_table_to_markdown t ≠ [])] at he
          exact ih (i + 1) e he
        · simp only [tableSections, if_pos ht, if_pos hmd] at he
          rcases List.mem_cons.mp he with he | he
          · subst he; exact ⟨rfl, hmd⟩
          · exact ih (i + 1) e he

/-- Counterexample for C4 as stated: a table whose first row is entirely
empty (a single missing cell) but which has a later non-empty row renders
non-empty and is recorded, instead of being skipped. -/
theorem c4_counterexample :
    (∀ c ∈ ([none] : List Cell), cellToStr c = [])
    ∧ list_table_to_markdown [[none], [some (toL "a")]] = toL "| a |\n| --- |"
    ∧ toL "| a |\n| --- |" ≠ []
    ∧ (tableSections 0 [[[none], [some (toL "a")]]]).2 ≠ [] := by decide

/-- Witness for C4 at concrete tables. -/
theorem c4_witness :
    list_table_to_markdown [[(none : Cell)]] = []
    ∧ tableSections 0 [[[(none : Cell)]], [[some (toL "a")]]]
        = tableSections 1 [[[some (toL "a")]]]
    ∧ (⟨2, toL "| a |\n| --- |", [[some (toL "a")]]⟩ : TableEntry).markdown ≠ [] := by
  refine ⟨?_, ?_, ?_⟩
  · exact (c4_empty_table_skipped.1 [[(none : Cell)]]).mpr (Or.inr (Or.inr (by decide)))
  · exact c4_empty_table_skipped.2.1 0 [[(none : Cell)]] [[[some (toL "a")]]] (by decide)
  · exact (c4_empty_table_skipped.2.2 0 [[[(none : Cell)]], [[some (toL "a")]]]
      ⟨2, toL "| a |\n| --- |", [[some (toL "a")]]⟩ (by decide)).2

/-- Claim C5: on a fallback page with detected table bounding boxes, the
prose input is exactly the glyphs lying outside every box (empty glyph
list gives empty text); with no detected box the full page text is used
directly. -/
theorem c5_prose_outside_tables (p : Page) :
    (p.foundBBoxes ≠ [] →
      (∀ c : PChar, c ∈ filteredChars p ↔
          c ∈ p.chars ∧ ∀ b ∈ p.foundBBoxes, charInBBoxB c b = false)
      ∧ (filteredChars p ≠ [] → pageTextOf p = p.extractFrom (filteredChars p))
      ∧ (filteredChars p = [] → pageTextOf p = []))
    ∧ (p.foundBBoxes = [] → pageTextOf p = p.fullTextRaw.getD []) := by
  constructor
  · intro hb
    refine ⟨?_, ?_, ?_⟩
    · intro c
      rw [filteredChars, List.mem_filter]
      simp [List.any_eq_true]
    · intro hne
      rw [pageTextOf, if_pos hb, if_pos hne]
    · intro he
      rw [pageTextOf, if_pos hb, if_neg (not_not_intro he)]
  · intro hb
    rw [pageTextOf, if_neg (not_not_intro hb)]

/-- Witness for C5 at a concrete page with one bounding box. -/
theorem c5_witness :
    pageTextOf pageW = toL "t"
    ∧ (⟨0, 0⟩ : PChar) ∈ filteredChars pageW
    ∧ (⟨10, 10⟩ : PChar) ∉ filteredChars pageW := by
  have h := (c5_prose_outside_tables pageW).1 (by decide)
  refine ⟨(h.2.1 (by decide)).trans (by decide), ?_, ?_⟩
  · exact (h.1 ⟨0, 0⟩).mpr (by decide)
  · exact fun hm => absurd ((h.1 ⟨10, 10⟩).mp hm) (by decide)

/-- Claim C6: a PDF parse request with a language outside the enumerated
set is rejected with a 400 response whose message names the value and
every member of the allowed set, and the parser is never invoked, in both
the app/main.py and the server.py endpoint. -/
theorem c6_unsupported_lang_rejected (filename lang : Str)
    (runParse : Str → Except Str ExtractionResult) (runMineru : Str → Except Str Str)
    (hpdf : (toL ".pdf").isSuffixOf (pyLower filename) = true)
    (hmain : lang ∉ SUPPORTED_LANGUAGES) (hsrv : lang ∉ SUPPORTED_LANGUAGES_server) :
    ((parse_pdf_endpoint filename (some lang) runParse).resp
        = Resp.failure 400 (unsupportedLangMsg lang SUPPORTED_LANGUAGES)
      ∧ (parse_pdf_endpoint filename (some lang) runParse).parseInvoked = false)
    ∧ ((server_parse_pdf filename (some lang) runMineru).resp
        = SrvResp.failure 400 (unsupportedLangMsg lang SUPPORTED_LANGUAGES_server)
      ∧ (server_parse_pdf filename (some lang) runMineru).parseInvoked = false)
    ∧ (∃ p q, unsupportedLangMsg lang SUPPORTED_LANGUAGES = p ++ lang ++ q)
    ∧ (∀ l ∈ SUPPORTED_LANGUAGES,
        ∃ p q, unsupportedLangMsg lang SUPPORTED_LANGUAGES = p ++ l ++ q)
    ∧ (∀ l ∈ SUPPORTED_LANGUAGES_server,
        ∃ p q, unsupportedLangMsg lang SUPPORTED_LANGUAGES_server = p ++ l ++ q) := by
  refine ⟨?_, ?_, unsupportedMsg_decomp_lang lang _,
    fun l hl => unsupportedMsg_decomp_mem lang l _ hl,
    fun l hl => unsupportedMsg_decomp_mem lang l _ hl⟩
  · rw [parse_pdf_endpoint]
    simp only [Option.getD_some, hpdf, Bool.not_true, Bool.false_eq_true, if_false]
    rw [if_pos hmain]
    exact ⟨rfl, rfl⟩
  · rw [server_parse_pdf]
    simp only [Option.getD_some]
    rw [if_pos hsrv]
    exact ⟨rfl, rfl⟩

/-- Witness for C6 with the unsupported language `klingon`. -/
theorem c6_witness :
    ((parse_pdf_endpoint (toL "doc.pdf") (some (toL "klingon"))
        (fun _ => Except.error [])).resp
      = Resp.failure 400 (unsupportedLangMsg (toL "klingon") SUPPORTED_LANGUAGES))
    ∧ (parse_pdf_endpoint (toL "doc.pdf") (some (toL "klingon"))
        (fun _ => Except.error [])).parseInvoked = false
    ∧ (server_parse_pdf (toL "doc.pdf") (some (toL "klingon"))
        (fun _ => Except.error [])).parseInvoked = false := by
  have h := c6_unsupported_lang_rejected (toL "doc.pdf") (toL "klingon")
    (fun _ => Except.error []) (fun _ => Except.error [])
    (by decide) (by decide) (by decide)
  exact ⟨h.1.1, h.1.2, h.2.1.2⟩

/-- Claim C7: every office conversion and every PDF or image parse removes
its per-request temporary file or working directory on both the success
and the failure path before returning. -/
theorem c7_temp_resources_removed {β : Type} (filename lang fileType ts : Str) (content : β)
    (pdfPages : β → List Page) (primary : PrimaryOutcome) (pageCount : Nat)
    (width height : Nat) (fmt : Str) (ocr convert : Except Str Str) :
    (parsePdfSync filename lang content pdfPages primary pageCount ts).2.tempRemoved = true
    ∧ (parseImageSync filename ts width height fmt ocr).2.tempRemoved = true
    ∧ (parseOfficeSync filename fileType ts convert).2.tempRemoved = true := by
  refine ⟨?_, ?_, ?_⟩
  · cases primary <;> rfl
  · cases ocr <;> rfl
  · cases convert <;> rfl

/-- Claim C8 (amended): on every successful PDF parse the sibling
`{base_name}_{timestamp}_images` directory is created, each extracted
image is copied there and recorded in the returned `images` list; the
fallback path creates the directory too, empty. -/
theorem c8_images_dir_on_every_success {β : Type} (filename lang ts : Str) (content : β)
    (pdfPages : β → List Page) (primary : PrimaryOutcome) (pageCount : Nat) :
    (∀ md cl imgs, primary = PrimaryOutcome.ok md cl imgs →
      (parsePdfSync filename lang content pdfPages primary pageCount ts).2.imagesDirCreated
          = some (OUTPUT_DIR ++ pyStem filename ++ toL "_" ++ ts ++ toL "_images")
        ∧ (parsePdfSync filename lang content pdfPages primary pageCount ts).2.imagesCopied = imgs
        ∧ (parsePdfSync filename lang content pdfPages primary pageCount ts).1.map
            (fun r => r.images) = Except.ok (some imgs)
        ∧ (parsePdfSync filename lang content pdfPages primary pageCount ts).1.map
            (fun r => r.markdown_file)
            = Except.ok (OUTPUT_DIR ++ pyStem filename ++ toL "_" ++ ts ++ toL ".md"))
    ∧ (∀ msg, primary = PrimaryOutcome.resourceMissing msg →
        (parsePdfSync filename lang content pdfPages primary pageCount ts).2.imagesDirCreated
            = some (OUTPUT_DIR ++ pyStem filename ++ toL "_" ++ ts ++ toL "_images")
          ∧ (parsePdfSync filename lang content pdfPages primary pageCount ts).2.imagesCopied
              = []) := by
  constructor
  · intro md cl imgs h; subst h; exact ⟨rfl, rfl, rfl, rfl⟩
  · intro msg h; subst h; exact ⟨rfl, rfl⟩

/-- Witness for C8 at a concrete successful primary parse with one image. -/
theorem c8_witness :
    (parsePdfSync (toL "d.pdf") (toL "en") (0 : Nat) (fun _ => [])
        (PrimaryOutcome.ok (toL "m") [] [toL "i.png"]) 1 (toL "T")).2.imagesDirCreated
      = some (toL "output/d_T_images")
    ∧ (parsePdfSync (toL "d.pdf") (toL "en") (0 : Nat) (fun _ => [])
        (PrimaryOutcome.ok (toL "m") [] [toL "i.png"]) 1 (toL "T")).2.imagesCopied
      = [toL "i.png"] := by
  have h := (c8_images_dir_on_every_success (toL "d.pdf") (toL "en") (toL "T") (0 : Nat)
    (fun _ => []) (PrimaryOutcome.ok (toL "m") [] [toL "i.png"]) 1).1
    (toL "m") [] [toL "i.png"] rfl
  exact ⟨h.1.trans (by decide), h.2.1⟩

/-- Counterexample for C8 as stated: a fallback parse produces a result
with no images, yet the images directory is still created, because the
guard tests the temp image directory that is always created. -/
theorem c8_counterexample :
    ((parsePdfSync (toL "doc.pdf") (toL "en") (0 : Nat) (fun _ => [])
        (PrimaryOutcome.resourceMissing []) 0 (toL "20260101_000000")).1.map
        (fun r => r.images) = Except.ok (some []))
    ∧ (parsePdfSync (toL "doc.pdf") (toL "en") (0 : Nat) (fun _ => [])
        (PrimaryOutcome.resourceMissing []) 0 (toL "20260101_000000")).2.imagesDirCreated
      = some (toL "output/doc_20260101_000000_images") := ⟨rfl, by decide⟩

/-- Claim C9 (amended): the app/main.py endpoint uses `en` when the lang
form field is omitted, while the server.py endpoint uses `korean`. -/
theorem c9_default_language (filename : Str)
    (runParse : Str → Except Str ExtractionResult) (runMineru : Str → Except Str Str)
    (hpdf : (toL ".pdf").isSuffixOf (pyLower filename) = true) :
    (parse_pdf_endpoint filename none runParse).langUsed = some (toL "en")
    ∧ (server_parse_pdf filename none runMineru).langUsed = some (toL "korean") := by
  constructor
  · rw [parse_pdf_endpoint]
    simp only [Option.getD_none, hpdf, Bool.not_true, Bool.false_eq_true, if_false]
    rw [if_neg (by decide : ¬(toL "en" ∉ SUPPORTED_LANGUAGES))]
    cases runParse (toL "en") <;> rfl
  · rw [server_parse_pdf]
    simp only [Option.getD_none]
    rw [if_neg (by decide : ¬(toL "korean" ∉ SUPPORTED_LANGUAGES_server))]
    cases runMineru (toL "korean") <;> rfl

/-- Witness for C9 at a concrete request without a lang field. -/
theorem c9_witness :
    (parse_pdf_endpoint (toL "doc.pdf") none (fun _ => Except.error [])).langUsed
      = some (toL "en")
    ∧ (server_parse_pdf (toL "doc.pdf") none (fun _ => Except.error [])).langUsed
      = some (toL "korean") :=
  c9_default_language (toL "doc.pdf") (fun _ => Except.error [])
    (fun _ => Except.error []) (by decide)

/-- Counterexample for C9 as stated: the server.py endpoint extracts with
`korean`, not `en`, when the lang field is omitted. -/
theorem c9_counterexample :
    (server_parse_pdf (toL "doc.pdf") none (fun _ => Except.ok [])).langUsed
      = some (toL "korean")
    ∧ toL "korean" ≠ toL "en" := by
  constructor
  · decide
  · decide

/-- Claim C10 (amended): the filter removes every row that is empty or all
of whose cells are empty or missing, and the first surviving row becomes
the header row of the rendering. -/
theorem c10_filter_removes_empty_rows (data : List (List Cell)) :
    (∀ row ∈ filterRows data, row ≠ [] ∧ ∃ c ∈ row, cellToStr c ≠ [])
    ∧ (∀ (hd : List Cell) (tl : List (List Cell)), filterRows data = hd :: tl →
        (cellRowsOfFiltered (filterRows data)).head? =
          some (rowCells (maxColsOf (hd :: tl)) hd)) := by
  constructor
  · intro row hrow
    rw [filterRows, List.mem_filter] at hrow
    exact (rowKeep_iff row).mp hrow.2
  · intro hd tl h
    rw [h]
    simp [cellRowsOfFiltered]

/-- Counterexample for C10 as stated: a row with one whitespace-only cell
survives the filter but renders as a data row consisting entirely of
empty cells. -/
theorem c10_counterexample :
    filterRows [[some (toL "a")], [some (toL " ")]] = [[some (toL "a")], [some (toL " ")]]
    ∧ cellRowsOfFiltered [[some (toL "a")], [some (toL " ")]]
        = [[toL "a"], [toL "---"], [[]]]
    ∧ list_table_to_markdown [[some (toL "a")], [some (toL " ")]]
        = toL "| a |\n| --- |\n|  |"
    ∧ ¬ (∀ row ∈ (cellRowsOfFiltered [[some (toL "a")], [some (toL " ")]]).drop 2,
          ∃ cell ∈ row, cell ≠ []) := by decide

/-- Witness for C10 at a concrete table with a leading empty row. -/
theorem c10_witness :
    ([some (toL "b")] : List Cell) ≠ []
    ∧ (cellRowsOfFiltered (filterRows [[(none : Cell)], [some (toL "b")], []])).head? =
        some (rowCells 1 [some (toL "b")]) := by
  have h := c10_filter_removes_empty_rows [[(none : Cell)], [some (toL "b")], []]
  refine ⟨(h.1 [some (toL "b")] (by decide)).1, ?_⟩
  exact (h.2 [some (toL "b")] [] (by decide)).trans (by decide)
